import Mathlib

/-!
Shallow embedding of src/arduino_ide/cores/arduino/Arduino.cpp together
with the constants of Arduino.h, and theorems settling the spec claims
about the pin, timing, random and math-utility functions.

The only mutable state in the translated program is the libc
pseudo-random-generator state touched by srand/rand; every pin and timing
function in Arduino.cpp is a stub that reads and writes no program state.
C signed arithmetic is modelled exactly over Int (signed overflow is
undefined behavior in C and outside the model); C truncating division and
remainder on long are Int.tdiv and Int.tmod; unsigned long arithmetic is
Nat reduced modulo 2 ^ 32 (AVR unsigned long is 32 bits) and unsigned int
modulo 2 ^ 16.
-/

namespace ArduinoCore

/-- Digital level constant HIGH (Arduino.h line 22). -/
def HIGH : Int := 1

/-- Digital level constant LOW (Arduino.h line 23). -/
def LOW : Int := 0

/-- Pin mode constant INPUT (Arduino.h line 25). -/
def INPUT : Int := 0

/-- Pin mode constant OUTPUT (Arduino.h line 26). -/
def OUTPUT : Int := 1

/-- Pin mode constant INPUT_PULLUP (Arduino.h line 27). -/
def INPUT_PULLUP : Int := 2

/-- The mutable program state of Arduino.cpp: the only global mutable state
the translated functions can touch is the libc pseudo-random-generator
state (written by srand, read by rand). The pin and timing stubs keep no
state of their own and the program declares no other globals. -/
structure ProgState where
  rng : Nat
  deriving DecidableEq

/-- Embeds pinMode (Arduino.cpp lines 23-27): a stub that discards both
arguments and changes nothing. -/
def pinMode (pin : Nat) (mode : Int) (s : ProgState) : ProgState := s

/-- Embeds digitalWrite (Arduino.cpp lines 29-33): a stub that discards
both arguments and changes nothing. -/
def digitalWrite (pin : Nat) (val : Int) (s : ProgState) : ProgState := s

/-- Embeds digitalRead (Arduino.cpp lines 35-39): a stub that discards the
pin and returns LOW, changing nothing. -/
def digitalRead (pin : Nat) (s : ProgState) : Int × ProgState := (LOW, s)

/-- Embeds analogRead (Arduino.cpp lines 42-46): a stub that discards the
pin and returns 0, changing nothing. -/
def analogRead (pin : Nat) (s : ProgState) : Int × ProgState := (0, s)

/-- Embeds analogWrite (Arduino.cpp lines 53-57): a stub that discards both
arguments and changes nothing. -/
def analogWrite (pin : Nat) (val : Int) (s : ProgState) : ProgState := s

/-- Embeds millis (Arduino.cpp lines 60-63): a stub that returns 0. -/
def millis (s : ProgState) : Nat := 0

/-- Embeds micros (Arduino.cpp lines 65-68): a stub that returns 0. -/
def micros (s : ProgState) : Nat := 0

/-- The loop body of delay and delayMicroseconds is a single nop
instruction, which changes no program state. -/
def nop (s : ProgState) : ProgState := s

/-- Number of busy-wait iterations delay(ms) performs (Arduino.cpp lines
70-75): the loop bound is ms * 1000 computed in 32-bit unsigned long
arithmetic. -/
def delayIterations (ms : Nat) : Nat := ((ms % 2 ^ 32) * 1000) % 2 ^ 32

/-- Embeds delay (Arduino.cpp lines 70-75): iterate the nop body
delayIterations ms times. The loop reads no clock; its bound is a pure
function of ms alone. -/
def delay (ms : Nat) (s : ProgState) : ProgState := nop^[delayIterations ms] s

/-- Number of busy-wait iterations delayMicroseconds(us) performs
(Arduino.cpp lines 77-82): the 16-bit unsigned int argument itself. -/
def delayMicrosecondsIterations (us : Nat) : Nat := us % 2 ^ 16

/-- Embeds delayMicroseconds (Arduino.cpp lines 77-82): iterate the nop
body us times. -/
def delayMicroseconds (us : Nat) (s : ProgState) : ProgState :=
  nop^[delayMicrosecondsIterations us] s

/-- Embeds randomSeed (Arduino.cpp lines 132-136): srand(seed) is called
only when seed is nonzero. The libc srand is external to the repository,
so it is passed in as srandFn acting on the generator state. -/
def randomSeed (srandFn : Nat → Nat → Nat) (seed : Nat) (s : ProgState) :
    ProgState :=
  if seed ≠ 0 then ProgState.mk (srandFn seed s.rng) else s

/-- Embeds random(long howbig) (Arduino.cpp lines 138-143). The libc rand
is external to the repository, so it is passed in as randFn, which consumes
the generator state and returns the drawn value (a C int, nonnegative per
the C standard) together with the new state. The C remainder on long
truncates toward zero: Int.tmod. -/
def random1 (randFn : Nat → Int × Nat) (howbig : Int) (s : ProgState) :
    Int × ProgState :=
  if howbig = 0 then (0, s)
  else (Int.tmod (randFn s.rng).1 howbig, ProgState.mk (randFn s.rng).2)

/-- Embeds random(long howsmall, long howbig) (Arduino.cpp lines 145-151):
returns howsmall when howsmall >= howbig, otherwise random(diff) + howsmall
with diff = howbig - howsmall. -/
def random2 (randFn : Nat → Int × Nat) (howsmall howbig : Int)
    (s : ProgState) : Int × ProgState :=
  if howsmall ≥ howbig then (howsmall, s)
  else ((random1 randFn (howbig - howsmall) s).1 + howsmall,
        (random1 randFn (howbig - howsmall) s).2)

/-- Embeds map (Arduino.cpp lines 154-156). C signed division on long
truncates toward zero: Int.tdiv. -/
def map (x in_min in_max out_min out_max : Int) : Int :=
  Int.tdiv ((x - in_min) * (out_max - out_min)) (in_max - in_min) + out_min

/-- Total embedding of map that makes the division fallible: C division by
zero is undefined behavior, modelled as the none branch; the source has no
guard, so the divisor in_max - in_min is tested directly. -/
def mapChecked (x in_min in_max out_min out_max : Int) : Option Int :=
  if in_max - in_min = 0 then none
  else
    some (Int.tdiv ((x - in_min) * (out_max - out_min)) (in_max - in_min)
      + out_min)

/-- The externally observable calls main can make: the setup callback, the
loop callback, or returning from main. -/
inductive DriverEvent where
  | callSetup
  | callLoop
  | ret
  deriving DecidableEq

/-- Control position inside main (Arduino.cpp lines 12-20): before the
setup() call, or inside the for(;;) loop. The return statement on line 19
sits after an infinite loop with no break, so no position reaches it. -/
inductive DriverPhase where
  | start
  | looping
  deriving DecidableEq

/-- One iteration of main: from the start main calls setup() and enters
for(;;); from inside the loop it calls loop() and stays there. -/
def driverStep : DriverPhase → DriverPhase × DriverEvent
  | .start => (.looping, .callSetup)
  | .looping => (.looping, .callLoop)

/-- Control position of main before its n-th call. -/
def driverPhase : Nat → DriverPhase
  | 0 => .start
  | n + 1 => (driverStep (driverPhase n)).1

/-- The n-th call main makes. -/
def driverEvent (n : Nat) : DriverEvent := (driverStep (driverPhase n)).2

/-- After the first step main is inside the for(;;) loop forever. -/
theorem driverPhase_succ (n : Nat) :
    driverPhase (n + 1) = DriverPhase.looping := by
  induction n with
  | zero => rfl
  | succ k ih =>
      show (driverStep (driverPhase (k + 1))).1 = DriverPhase.looping
      rw [ih]
      rfl

/-- A fixed rand model used to instantiate the externally supplied libc
generator in witnesses: it draws 5 and increments the state. -/
def randTest : Nat → Int × Nat := fun n => (5, n + 1)

/-- A concrete program state used in witnesses. -/
def sTest : ProgState := ProgState.mk 0

/-- C1: map(x, 0, 10, 0, 100) is exactly the linear re-scaling
(x - 0) * (100 - 0) / (10 - 0) + 0 with truncating division; in particular
it returns 50 at x = 5, 0 at x = 0, 100 at x = 10, and extrapolates
linearly outside the range, giving -10 at x = -1. -/
theorem map_rescale_0_10_0_100 (x : Int) :
    map x 0 10 0 100 = Int.tdiv ((x - 0) * (100 - 0)) (10 - 0) + 0 ∧
    map 5 0 10 0 100 = 50 ∧
    map 0 0 10 0 100 = 0 ∧
    map 10 0 10 0 100 = 100 ∧
    map (-1) 0 10 0 100 = -10 :=
  ⟨rfl, by decide, by decide, by decide, by decide⟩

/-- C2 divergence witness: for pin 255 (the code has no pin-descriptor
table, so no pin has a descriptor), every one of the five pin operations
succeeds as a no-op: the state is returned unchanged, digitalRead returns
LOW and analogRead returns 0, and no error value of any kind exists in
their types, so no InvalidPin failure ever occurs. -/
theorem pin_ops_never_fail (s : ProgState) :
    pinMode 255 INPUT s = s ∧
    digitalWrite 255 HIGH s = s ∧
    digitalRead 255 s = (LOW, s) ∧
    analogRead 255 s = (0, s) ∧
    analogWrite 255 0 s = s :=
  ⟨rfl, rfl, rfl, rfl, rfl⟩

/-- C3 divergence witness: after pinMode(13, OUTPUT) and
digitalWrite(13, HIGH), digitalRead(13) returns LOW, which differs from
HIGH: the stubs store no pin state and digitalRead always returns LOW. -/
theorem write_high_then_read_gives_low (s : ProgState) :
    (digitalRead 13 (digitalWrite 13 HIGH (pinMode 13 OUTPUT s))).1 = LOW ∧
    LOW ≠ HIGH :=
  ⟨rfl, by decide⟩

/-- C4: millis never jumps backward: for any two successive calls, the
value at the second call is at least the value at the first. The stub
returns the constant 0, so this holds unconditionally, with or without
wraparound between the calls. -/
theorem millis_monotone (s1 s2 : ProgState) : millis s1 ≤ millis s2 :=
  Nat.le_refl 0

/-- C5: delay(0) and delayMicroseconds(0) perform zero busy-wait iterations
and return the state unchanged. -/
theorem delay_zero_immediate (s : ProgState) :
    delayIterations 0 = 0 ∧
    delayMicrosecondsIterations 0 = 0 ∧
    delay 0 s = s ∧
    delayMicroseconds 0 s = s :=
  ⟨rfl, rfl, rfl, rfl⟩

/-- C6 divergence witness: delay is a fixed, uncalibrated busy-wait, not a
poll of millis: delay(1) performs exactly 1000 nop iterations whose count
is a pure function of the argument (delayIterations reads no clock), and
the whole call leaves the program state, including anything millis could
read, untouched. -/
theorem delay_is_fixed_busy_wait (ms : Nat) (s : ProgState) :
    delayIterations 1 = 1000 ∧
    delay ms s = s ∧
    millis (delay ms s) = millis s :=
  ⟨rfl, Function.iterate_fixed rfl (delayIterations ms), rfl⟩

/-- C7: main calls setup exactly once, as its very first call, and
afterwards calls loop on every iteration forever; no iteration ever emits a
return, since the return statement follows an infinite loop with no
break. -/
theorem main_setup_once_then_loop_forever (n : Nat) :
    driverEvent n
      = (if n = 0 then DriverEvent.callSetup else DriverEvent.callLoop) ∧
    driverEvent n ≠ DriverEvent.ret := by
  cases n with
  | zero => exact ⟨rfl, by decide⟩
  | succ k =>
      have h : driverEvent (k + 1) = DriverEvent.callLoop := by
        unfold driverEvent
        rw [driverPhase_succ k]
        rfl
      refine ⟨?_, ?_⟩ <;> simp [h]

/-- C8: map divides by in_max - in_min with no guard; whenever in_max
differs from in_min the division-by-zero branch of the total embedding is
unreachable and the checked map agrees with map, while for in_max equal to
in_min the checked map is the error none. -/
theorem map_division_guard (x in_min in_max out_min out_max : Int)
    (h : in_max ≠ in_min) :
    mapChecked x in_min in_max out_min out_max
      = some (map x in_min in_max out_min out_max) ∧
    mapChecked x in_min in_min out_min out_max = none := by
  constructor
  · have hz : in_max - in_min ≠ 0 := sub_ne_zero.mpr h
    simp [mapChecked, map, hz]
  · simp [mapChecked]

/-- Witness for C8 at x = 5, in range 0..10, out range 0..100, plus the
degenerate range 0..0. -/
theorem map_division_guard_witness :
    (10 : Int) ≠ 0 ∧
    (mapChecked 5 0 10 0 100 = some (map 5 0 10 0 100) ∧
      mapChecked 5 0 0 0 100 = none) :=
  ⟨by decide, map_division_guard 5 0 10 0 100 (by decide)⟩

/-- C9: random(0) returns 0; random(b) for b > 0 returns a value in
[0, b); random(howsmall, howbig) returns howsmall whenever
howsmall >= howbig (shown at the equal pair (a, a) and at the strict pair
(d, c) with c < d), and for c < d returns a value in [c, d). The rand value
drawn in this call is nonnegative, as the C standard guarantees. -/
theorem random_ranges (randFn : Nat → Int × Nat) (a b c d : Int)
    (s : ProgState) (hr : 0 ≤ (randFn s.rng).1) (hb : 0 < b) (hcd : c < d) :
    (random1 randFn 0 s).1 = 0 ∧
    0 ≤ (random1 randFn b s).1 ∧
    (random1 randFn b s).1 < b ∧
    (random2 randFn a a s).1 = a ∧
    (random2 randFn d c s).1 = d ∧
    c ≤ (random2 randFn c d s).1 ∧
    (random2 randFn c d s).1 < d := by
  have hb0 : b ≠ 0 := ne_of_gt hb
  have hdiff : (0 : Int) < d - c := sub_pos.mpr hcd
  have hdiff0 : d - c ≠ 0 := ne_of_gt hdiff
  have hv0 : 0 ≤ Int.tmod (randFn s.rng).1 (d - c) :=
    Int.tmod_nonneg _ hr
  have hv1 : Int.tmod (randFn s.rng).1 (d - c) < d - c :=
    Int.tmod_lt_of_pos _ hdiff
  refine ⟨by simp [random1], ?_, ?_, by simp [random2], ?_, ?_, ?_⟩
  · simp only [random1, if_neg hb0]
    exact Int.tmod_nonneg _ hr
  · simp only [random1, if_neg hb0]
    exact Int.tmod_lt_of_pos _ hb
  · simp [random2, hcd.le]
  · simp only [random2, random1, if_neg (not_le.mpr hcd), if_neg hdiff0]
    linarith
  · simp only [random2, random1, if_neg (not_le.mpr hcd), if_neg hdiff0]
    linarith

/-- Witness for C9 with the fixed rand model drawing 5, at howbig = 9 and
the range pairs (4, 4), (9, 2) and (2, 9). -/
theorem random_ranges_witness :
    ((0 : Int) ≤ (randTest sTest.rng).1 ∧ (0 : Int) < 9 ∧ (2 : Int) < 9) ∧
    ((random1 randTest 0 sTest).1 = 0 ∧
      0 ≤ (random1 randTest 9 sTest).1 ∧
      (random1 randTest 9 sTest).1 < 9 ∧
      (random2 randTest 4 4 sTest).1 = 4 ∧
      (random2 randTest 9 2 sTest).1 = 9 ∧
      2 ≤ (random2 randTest 2 9 sTest).1 ∧
      (random2 randTest 2 9 sTest).1 < 9) :=
  ⟨⟨by decide, by decide, by decide⟩,
    random_ranges randTest 4 9 2 9 sTest (by decide) (by decide) (by decide)⟩

/-- C10: randomSeed(0) is a no-op: srand is not called and the generator
state is returned unchanged, so a subsequent random(howbig) draws exactly
what it would have drawn without the call; a nonzero seed, by contrast,
re-seeds the generator through srand. -/
theorem randomSeed_zero_noop (srandFn : Nat → Nat → Nat)
    (randFn : Nat → Int × Nat) (howbig : Int) (seed : Nat) (s : ProgState)
    (hs : seed ≠ 0) :
    randomSeed srandFn 0 s = s ∧
    random1 randFn howbig (randomSeed srandFn 0 s)
      = random1 randFn howbig s ∧
    randomSeed srandFn seed s = ProgState.mk (srandFn seed s.rng) := by
  refine ⟨rfl, rfl, ?_⟩
  simp [randomSeed, hs]

/-- Witness for C10 with a concrete srand model, seed 1 and the fixed rand
model. -/
theorem randomSeed_zero_noop_witness :
    (1 : Nat) ≠ 0 ∧
    (randomSeed (fun a b => a + b) 0 sTest = sTest ∧
      random1 randTest 9 (randomSeed (fun a b => a + b) 0 sTest)
        = random1 randTest 9 sTest ∧
      randomSeed (fun a b => a + b) 1 sTest
        = ProgState.mk ((fun a b => a + b) 1 sTest.rng)) :=
  ⟨by decide, randomSeed_zero_noop (fun a b => a + b) randTest 9 1 sTest
    (by decide)⟩

end ArduinoCore
